import Mathlib

/-! contour-authserver: the `htpasswd` command (`pkg/cli/htpasswd.go`).

A shallow embedding of `NewHtpasswdCommand`: the registered flags, the
sequential start-up checks of `RunE` (controller manager, controller
registration, listener, TLS gate), and the concurrent part (two service
goroutines, the unbuffered `errChan`, the `stopChan` closed by the signal
handler, and the final `select`) as a labelled transition system.

External collaborators (`ctrl.NewManager`, `RegisterWithManager`,
`net.Listen`, `auth.NewServerCredentials`, `auth.RunServer`, `mgr.Start`)
are inputs: their results come from an environment `Env` or from the events
of a schedule.
-/

namespace Htpasswd

/-! ## Errors -/

/-- A Go `error` value: either an error produced by a collaborator, or one
built by `fmt.Errorf` from a format with a single verb (`%s` or `%w`). -/
inductive GoError where
  | leaf (text : String)
  | errorf (format : String) (arg : GoError)
  deriving DecidableEq, Repr

/-- Modelled from the spec: the exit-class constants `EX_FAIL` and `EX_CONFIG`
are declared in another file of package `cli`; §6 only requires a
"configuration" class and an "operational" class that are distinguishable. -/
inductive ExitCode where
  | EX_FAIL
  | EX_CONFIG
  deriving DecidableEq, Repr

open ExitCode

/-- The struct behind the literal `ExitError{EX_CONFIG, err}`: an exit code and
the underlying error. -/
structure ExitError where
  Code : ExitCode
  Err : GoError
  deriving DecidableEq, Repr

/-- Modelled from the spec: `ExitErrorf` is declared in another file of package
`cli`; it is the formatting companion of the `ExitError` literal, giving an
`ExitError` of the given class whose error is `fmt.Errorf(format, arg)`. -/
def ExitErrorf (code : ExitCode) (format : String) (arg : GoError) : ExitError :=
  ExitError.mk code (GoError.errorf format arg)

/-- Whether a format wraps its argument: `fmt.Errorf` keeps the argument as the
cause (`Unwrap`) exactly when the verb is `%w`. The formats of this file end in
their single verb. -/
def wrapsArg (format : String) : Bool :=
  (format.toList.reverse.take 2).reverse == ['%', 'w']

/-- The `Unwrap` of an error: the cause kept by a `%w` format. -/
def GoError.Unwrap : GoError → Option GoError
  | GoError.leaf _ => none
  | GoError.errorf format arg => if wrapsArg format then some arg else none

/-- A Go value of type `error`: `none` is `nil`. -/
abbrev Outcome := Option ExitError

/-! ## Flags -/

/-- The values of the flags registered by `NewHtpasswdCommand`, after parsing. -/
structure Flags where
  metricsAddress : String
  watchNamespaces : List String
  address : String
  tlsCertPath : String
  tlsCaPath : String
  tlsKeyPath : String
  authRealm : String
  deriving DecidableEq, Repr

/-- The defaults given at registration (`cmd.Flags().String(name, default, usage)`). -/
def Flags.defaults : Flags :=
  Flags.mk ":8080" [] ":9090" "" "" "" "default"

/-- The lookup `cmd.Flags().GetString(name)`: the value of a registered string
flag, an error for any other name. -/
def Flags.GetString (f : Flags) (name : String) : Except GoError String :=
  if name = "metrics-address" then Except.ok f.metricsAddress
  else if name = "address" then Except.ok f.address
  else if name = "tls-cert-path" then Except.ok f.tlsCertPath
  else if name = "tls-ca-path" then Except.ok f.tlsCaPath
  else if name = "tls-key-path" then Except.ok f.tlsKeyPath
  else if name = "auth-realm" then Except.ok f.authRealm
  else Except.error (GoError.leaf ("flag accessed but not defined: " ++ name))

/-- The lookup `cmd.Flags().GetStringSlice(name)`. -/
def Flags.GetStringSlice (f : Flags) (name : String) : Except GoError (List String) :=
  if name = "watch-namespaces" then Except.ok f.watchNamespaces
  else Except.error (GoError.leaf ("flag accessed but not defined: " ++ name))

/-- Modelled from the spec: `mustString` is declared in another file of package
`cli`; it returns the looked-up value (§6: the settings are "all defaulted" and
passed through unchanged). A failed lookup aborts the program in Go; every
name looked up in `RunE` is registered, so that branch is never taken here. -/
def mustString (r : Except GoError String) : String :=
  match r with
  | Except.ok s => s
  | Except.error _ => ""

/-- Modelled from the spec: `anyString` is declared in another file of package
`cli`; §4.1: transport security is requested "if any of the three paths is
set", and disabled if none is. A path is set when it is not the empty string. -/
def anyString (values : List String) : Bool :=
  values.any (fun s => s != "")

/-! ## Collaborators -/

/-- The fields of `ctrl.Options` set by `RunE`. `NewCache` is `none` for the
nil `cacheFunc`, and `some ns` for `cache.MultiNamespacedCacheBuilder(ns)`. -/
structure ManagerOptions where
  NewCache : Option (List String)
  MetricsBindAddress : String
  deriving DecidableEq, Repr

/-- The `auth.Htpasswd` value built by `RunE` (its client comes from the manager). -/
structure HtpasswdServer where
  Realm : String
  deriving DecidableEq, Repr

/-- A bound listener: the network and address given to `net.Listen`. -/
structure Listener where
  network : String
  address : String
  deriving DecidableEq, Repr

/-- Loaded transport credentials: the certificate, key and trust-anchor
material. -/
structure TransportCredentials where
  cert : String
  key : String
  ca : String
  deriving DecidableEq, Repr

/-- A `grpc.ServerOption` as built in `RunE`. -/
inductive ServerOption where
  | MaxConcurrentStreams (n : Nat)
  | Creds (c : TransportCredentials)
  deriving DecidableEq, Repr

/-- The results of the external calls made during start-up. `none` is a nil
error. -/
structure Env where
  NewManager : ManagerOptions → Option GoError
  RegisterWithManager : HtpasswdServer → ManagerOptions → Option GoError
  Listen : String → String → Except GoError Listener
  NewServerCredentials : String → String → String → Except GoError TransportCredentials

/-- A file system as seen by the credential loader: the content of a readable
file, and whether three contents parse as a matching certificate, key and
trust-anchor bundle. -/
structure FileSystem where
  readFile : String → Option String
  parses : String → String → String → Bool

/-- Modelled from the spec: `auth.NewServerCredentials` belongs to package
`auth`, which is not among the sources. §4.1: the three artifacts are loaded
and validated "together as a unit"; loading fails "if any required file is
missing, unreadable, or fails to parse as the expected credential material";
"either all three are present and valid, or the attempt fails". A path that
is not set names no file. -/
def auth.NewServerCredentials (fs : FileSystem) (certPath keyPath caPath : String) :
    Except GoError TransportCredentials :=
  if certPath = "" ∨ keyPath = "" ∨ caPath = "" then
    Except.error (GoError.leaf "missing credential file")
  else
    match fs.readFile certPath, fs.readFile keyPath, fs.readFile caPath with
    | some cert, some key, some ca =>
      if fs.parses cert key ca then Except.ok (TransportCredentials.mk cert key ca)
      else Except.error (GoError.leaf "malformed credential material")
    | _, _, _ => Except.error (GoError.leaf "unreadable credential file")

/-! ## Start-up of `RunE` -/

/-- The external calls and launches of `RunE`, in the order they are made. -/
inductive Action where
  | NewManager (o : ManagerOptions)
  | RegisterWithManager (h : HtpasswdServer)
  | Listen (network address : String)
  | NewServerCredentials (certPath keyPath caPath : String)
  | MakeErrChan
  | SetupSignalHandler
  | GoAuthServer (l : Listener) (opts : List ServerOption)
  | GoController (m : ManagerOptions)
  deriving DecidableEq, Repr

/-- What the two goroutines close over once start-up has succeeded. -/
structure Started where
  mgr : ManagerOptions
  htpasswd : HtpasswdServer
  listener : Listener
  opts : List ServerOption
  deriving DecidableEq, Repr

/-- The `cacheFunc` of `RunE`: set only when the namespace lookup succeeds with
a non-empty list. -/
def cacheFunc (f : Flags) : Option (List String) :=
  match f.GetStringSlice "watch-namespaces" with
  | Except.ok ns => if ns.length > 0 then some ns else none
  | Except.error _ => none

/-- The options given to `ctrl.NewManager`. -/
def managerOptions (f : Flags) : ManagerOptions :=
  ManagerOptions.mk (cacheFunc f) (mustString (f.GetString "metrics-address"))

/-- The TLS gate of `RunE` (from `opts := ...` to the end of the `if anyString`
block): the calls made, and either the error returned or the server options. -/
def tlsGate (f : Flags) (env : Env) : List Action × Except ExitError (List ServerOption) :=
  let opts := [ServerOption.MaxConcurrentStreams (1 <<< 20)]
  if anyString [mustString (f.GetString "tls-cert-path"),
                mustString (f.GetString "tls-key-path"),
                mustString (f.GetString "tls-ca-path")] then
    let call := Action.NewServerCredentials
      (mustString (f.GetString "tls-cert-path"))
      (mustString (f.GetString "tls-key-path"))
      (mustString (f.GetString "tls-ca-path"))
    match env.NewServerCredentials
      (mustString (f.GetString "tls-cert-path"))
      (mustString (f.GetString "tls-key-path"))
      (mustString (f.GetString "tls-ca-path")) with
    | Except.error err =>
      ([call], Except.error (ExitErrorf EX_CONFIG "invalid TLS configuration: %s" err))
    | Except.ok creds => ([call], Except.ok (opts ++ [ServerOption.Creds creds]))
  else
    ([], Except.ok opts)

/-- The sequential part of `RunE`, up to and including the two `go` statements:
the actions performed in order, and either the error returned or the state the
goroutines start from. `ctrl.GetConfigOrDie()` returns a configuration or ends
the process; here it has returned. -/
def startup (f : Flags) (env : Env) : List Action × Except ExitError Started :=
  let mo := managerOptions f
  match env.NewManager mo with
  | some err =>
    ([Action.NewManager mo],
      Except.error (ExitErrorf EX_CONFIG "failed to create controller manager: %s" err))
  | none =>
    let htpasswd := HtpasswdServer.mk (mustString (f.GetString "auth-realm"))
    match env.RegisterWithManager htpasswd mo with
    | some err =>
      ([Action.NewManager mo, Action.RegisterWithManager htpasswd],
        Except.error (ExitErrorf EX_FAIL "htpasswd controller registration failed: %w" err))
    | none =>
      let address := mustString (f.GetString "address")
      match env.Listen "tcp" address with
      | Except.error err =>
        ([Action.NewManager mo, Action.RegisterWithManager htpasswd, Action.Listen "tcp" address],
          Except.error (ExitError.mk EX_CONFIG err))
      | Except.ok listener =>
        match tlsGate f env with
        | (calls, Except.error e) =>
          ([Action.NewManager mo, Action.RegisterWithManager htpasswd,
            Action.Listen "tcp" address] ++ calls, Except.error e)
        | (calls, Except.ok opts) =>
          ([Action.NewManager mo, Action.RegisterWithManager htpasswd,
            Action.Listen "tcp" address] ++ calls ++
            [Action.MakeErrChan, Action.SetupSignalHandler,
             Action.GoAuthServer listener opts, Action.GoController mo],
            Except.ok (Started.mk mo htpasswd listener opts))

/-! ## The concurrent part of `RunE`

After start-up `RunE` makes the unbuffered `errChan`, takes `stopChan` from
`ctrl.SetupSignalHandler()`, starts the two goroutines and blocks in `select`.
The state below records where each goroutine stands, which goroutines are
blocked in a send on `errChan` (oldest first, as the channel queues them),
whether `stopChan` is closed, and what `RunE` has returned, if it has. -/

/-- The two service goroutines. -/
inductive Service where
  | AuthServer
  | Controller
  deriving DecidableEq, Repr

/-- The sends on `errChan` made by the authorization-server goroutine once
`auth.RunServer` has returned `err`, in program order: the send inside
`if err != nil`, then the send that follows the `if`. -/
def authServerSends (err : Option GoError) : List Outcome :=
  (match err with
    | some e => [some (ExitErrorf EX_FAIL "authorization server failed: %w" e)]
    | none => []) ++ [none]

/-- The sends on `errChan` made by the controller goroutine once `mgr.Start`
has returned `err`, in program order. -/
def controllerSends (err : Option GoError) : List Outcome :=
  (match err with
    | some e => [some (ExitErrorf EX_FAIL "controller manager failed: %w" e)]
    | none => []) ++ [none]

/-- The state of the concurrent part. For a goroutine, `none` means it is
inside its run-loop; `some q` means the run-loop has returned and `q` are the
sends it has not completed yet (it is blocked at the head of `q`, or has ended
when `q` is empty). -/
structure Sys where
  authServer : Option (List Outcome)
  controller : Option (List Outcome)
  sendq : List Service
  stopped : Bool
  result : Option Outcome
  deriving DecidableEq, Repr

/-- The state right after the two `go` statements: both run-loops running,
nothing sent, `stopChan` open, `RunE` about to block in `select`. -/
def Sys.init : Sys :=
  Sys.mk none none [] false none

/-- What can happen next. `Signal` is the signal handler closing `stopChan`;
the two `Returns` events are the run-loops returning (with their error);
`Recv` is the `select` taking `case err := <-errChan` with the oldest blocked
sender; `RecvStop` is the `select` taking `case <-stopChan`. -/
inductive Event where
  | Signal
  | RunServerReturns (err : Option GoError)
  | StartReturns (err : Option GoError)
  | Recv
  | RecvStop
  deriving DecidableEq, Repr

/-- The unfinished sends of a goroutine. -/
def Sys.queue (s : Sys) : Service → Option (List Outcome)
  | Service.AuthServer => s.authServer
  | Service.Controller => s.controller

/-- Replace the unfinished sends of a goroutine. -/
def Sys.setQueue (s : Sys) (g : Service) (q : List Outcome) : Sys :=
  match g with
  | Service.AuthServer => Sys.mk (some q) s.controller s.sendq s.stopped s.result
  | Service.Controller => Sys.mk s.authServer (some q) s.sendq s.stopped s.result

/-- A goroutine whose run-loop returns starts on its sends `q`: it blocks in the
first one, behind the senders already waiting (or ends, if it has none). -/
def Sys.returns (s : Sys) (g : Service) (q : List Outcome) : Sys :=
  match s.queue g with
  | some _ => s
  | none =>
    let s1 := s.setQueue g q
    if q = [] then s1
    else Sys.mk s1.authServer s1.controller (s1.sendq ++ [g]) s1.stopped s1.result

/-- The receive of the `select`: the oldest blocked sender hands over its value,
`RunE` returns it, and the sender goes on to its next send, if any. -/
def Sys.recv (s : Sys) : Sys :=
  match s.result, s.sendq with
  | none, g :: waiting =>
    match s.queue g with
    | some (v :: rest) =>
      let s1 := s.setQueue g rest
      Sys.mk s1.authServer s1.controller
        (if rest = [] then waiting else waiting ++ [g]) s1.stopped (some v)
    | _ => s
  | _, _ => s

/-- One step of the system. An event that cannot happen in `s` (a second return
of the same run-loop, a receive with no sender or after `RunE` has returned, the
stop case while `stopChan` is open) leaves `s` unchanged. -/
def step (s : Sys) : Event → Sys
  | Event.Signal => Sys.mk s.authServer s.controller s.sendq true s.result
  | Event.RunServerReturns err => s.returns Service.AuthServer (authServerSends err)
  | Event.StartReturns err => s.returns Service.Controller (controllerSends err)
  | Event.Recv => s.recv
  | Event.RecvStop =>
    match s.result with
    | none =>
      if s.stopped then Sys.mk s.authServer s.controller s.sendq s.stopped (some none) else s
    | some _ => s

/-- Whether an event can happen in a state. -/
def enabled (s : Sys) : Event → Bool
  | Event.Signal => true
  | Event.RunServerReturns _ => s.authServer.isNone
  | Event.StartReturns _ => s.controller.isNone
  | Event.Recv => s.result.isNone && !s.sendq.isEmpty
  | Event.RecvStop => s.result.isNone && s.stopped

/-- Run a schedule. -/
def run (s : Sys) : List Event → Sys
  | [] => s
  | ev :: evs => run (step s ev) evs

/-- Whether every event of a schedule can happen when its turn comes. -/
def feasible (s : Sys) : List Event → Bool
  | [] => true
  | ev :: evs => enabled s ev && feasible (step s ev) evs

/-- The command: the error of a failed start-up, or else what the `select`
returns under the given schedule. The outer `none` means `RunE` is still
blocked in `select` when the schedule ends. -/
def RunE (f : Flags) (env : Env) (schedule : List Event) : Option Outcome :=
  match (startup f env).2 with
  | Except.error e => some (some e)
  | Except.ok _ => (run Sys.init schedule).result

/-! ## Vocabulary for the statements -/

/-- How many of the three TLS paths are set (not the empty string). -/
def tlsPathsSet (f : Flags) : Nat :=
  ([f.tlsCertPath, f.tlsKeyPath, f.tlsCaPath].filter (fun s => s != "")).length

/-- Whether an action starts a service goroutine (one of the two `go`
statements). -/
def Action.isLaunch : Action → Bool
  | Action.GoAuthServer _ _ => true
  | Action.GoController _ => true
  | _ => false

/-- Whether an action is a call of the credential loader. -/
def Action.isLoad : Action → Bool
  | Action.NewServerCredentials _ _ _ => true
  | _ => false

/-- The sends of a service goroutine once its run-loop has returned `err`. -/
def Service.sends : Service → Option GoError → List Outcome
  | Service.AuthServer => authServerSends
  | Service.Controller => controllerSends

/-- The event of a service's run-loop returning `err`. -/
def Service.returnsEvent : Service → Option GoError → Event
  | Service.AuthServer => Event.RunServerReturns
  | Service.Controller => Event.StartReturns

/-- The format a service goroutine wraps its run-loop's error with. -/
def Service.failureFormat : Service → String
  | Service.AuthServer => "authorization server failed: %w"
  | Service.Controller => "controller manager failed: %w"

/-- The three checks before the TLS gate succeed: the manager is constructed,
the controller is registered and the listener `l` is bound. -/
def reachesGate (f : Flags) (env : Env) (l : Listener) : Prop :=
  env.NewManager (managerOptions f) = none ∧
  env.RegisterWithManager (HtpasswdServer.mk f.authRealm) (managerOptions f) = none ∧
  env.Listen "tcp" f.address = Except.ok l

/-- The actions of the three checks before the TLS gate. -/
def checksLog (f : Flags) : List Action :=
  [Action.NewManager (managerOptions f),
   Action.RegisterWithManager (HtpasswdServer.mk f.authRealm),
   Action.Listen "tcp" f.address]

/-! ## Sample configurations -/

/-- An environment in which the manager is constructed, the controller is
registered and any address can be bound, with the given credential loader. -/
def Env.healthy (loader : String → String → String → Except GoError TransportCredentials) :
    Env :=
  Env.mk (fun _ => none) (fun _ _ => none) (fun network address => Except.ok (Listener.mk network address))
    loader

/-- A file system without any file. -/
def FileSystem.empty : FileSystem :=
  FileSystem.mk (fun _ => none) (fun _ _ _ => false)

/-- A file system holding a matching certificate, key and trust-anchor bundle. -/
def FileSystem.sample : FileSystem :=
  FileSystem.mk
    (fun path =>
      if path = "/tls/tls.crt" then some "CERT"
      else if path = "/tls/tls.key" then some "KEY"
      else if path = "/tls/ca.crt" then some "CA"
      else none)
    (fun cert key ca => cert == "CERT" && key == "KEY" && ca == "CA")

/-- The default flags with only `--tls-cert-path` given. -/
def Flags.certOnly : Flags :=
  Flags.mk ":8080" [] ":9090" "/tls/tls.crt" "" "" "default"

/-- The default flags with all three TLS paths given. -/
def Flags.withTLS : Flags :=
  Flags.mk ":8080" [] ":9090" "/tls/tls.crt" "/tls/ca.crt" "/tls/tls.key" "default"

/-- An environment in which the listener address cannot be bound and the
credential loader rejects everything. -/
def Env.bindFails : Env :=
  Env.mk (fun _ => none) (fun _ _ => none)
    (fun _ _ => Except.error (GoError.leaf "listen tcp :9090: bind: address already in use"))
    (fun _ _ _ => Except.error (GoError.leaf "open /tls/tls.crt: no such file or directory"))

/-- A schedule in which the signal arrives first, then the authorization
server's run-loop fails, then the `select` takes its receive case. -/
def Schedule.signalThenFailure : List Event :=
  [Event.Signal, Event.RunServerReturns (some (GoError.leaf "grpc: serve failed")), Event.Recv]

/-- A schedule without any signal: the authorization server's run-loop fails
and the `select` receives the failure. -/
def Schedule.failureOnly : List Event :=
  [Event.RunServerReturns (some (GoError.leaf "grpc: serve failed")), Event.Recv]

/-! ## Where a returned error comes from -/

/-- The places of `RunE` an error can come from. -/
inductive Origin where
  | managerConstruction
  | controllerRegistration
  | listenerBind
  | tlsLoading
  | authServerRun
  | controllerRun
  deriving DecidableEq, Repr

/-- The exit class expected of each origin: configuration for manager
construction, listener bind and TLS loading, operational for the rest. -/
def Origin.exitClass : Origin → ExitCode
  | Origin.managerConstruction => EX_CONFIG
  | Origin.listenerBind => EX_CONFIG
  | Origin.tlsLoading => EX_CONFIG
  | Origin.controllerRegistration => EX_FAIL
  | Origin.authServerRun => EX_FAIL
  | Origin.controllerRun => EX_FAIL

/-- The error `x` comes from origin `o`: control reached that place, the
collaborator failed there with some error, and the underlying error of `x` is
the one built from it at that place. The exit code of `x` plays no part. -/
def ArisesFrom (f : Flags) (env : Env) (schedule : List Event) (x : ExitError) : Origin → Prop
  | Origin.managerConstruction =>
    ∃ err, env.NewManager (managerOptions f) = some err ∧
      x.Err = GoError.errorf "failed to create controller manager: %s" err
  | Origin.controllerRegistration =>
    env.NewManager (managerOptions f) = none ∧
    ∃ err, env.RegisterWithManager (HtpasswdServer.mk f.authRealm) (managerOptions f) = some err ∧
      x.Err = GoError.errorf "htpasswd controller registration failed: %w" err
  | Origin.listenerBind =>
    env.NewManager (managerOptions f) = none ∧
    env.RegisterWithManager (HtpasswdServer.mk f.authRealm) (managerOptions f) = none ∧
    ∃ err, env.Listen "tcp" f.address = Except.error err ∧ x.Err = err
  | Origin.tlsLoading =>
    (∃ l, reachesGate f env l) ∧
    anyString [f.tlsCertPath, f.tlsKeyPath, f.tlsCaPath] = true ∧
    ∃ err, env.NewServerCredentials f.tlsCertPath f.tlsKeyPath f.tlsCaPath = Except.error err ∧
      x.Err = GoError.errorf "invalid TLS configuration: %s" err
  | Origin.authServerRun =>
    (∃ st, (startup f env).2 = Except.ok st) ∧
    ∃ err, Event.RunServerReturns (some err) ∈ schedule ∧
      x.Err = GoError.errorf "authorization server failed: %w" err
  | Origin.controllerRun =>
    (∃ st, (startup f env).2 = Except.ok st) ∧
    ∃ err, Event.StartReturns (some err) ∈ schedule ∧
      x.Err = GoError.errorf "controller manager failed: %w" err

/-- What holds of the state reached from `Sys.init` by the schedule `evs`:
while `RunE` is blocked, a goroutine past its run-loop still has all the sends
of the error its run-loop returned; and a failure returned by `RunE` is the
wrapped error of a run-loop that returned it. -/
def Inv (evs : List Event) (s : Sys) : Prop :=
  (s.result = none → ∀ (g : Service) (q : List Outcome), s.queue g = some q →
    ∃ err, g.returnsEvent err ∈ evs ∧ q = g.sends err) ∧
  (∀ x, s.result = some (some x) →
    ∃ (g : Service) (e : GoError),
      g.returnsEvent (some e) ∈ evs ∧ x = ExitErrorf EX_FAIL g.failureFormat e)

end Htpasswd

namespace Htpasswd

open ExitCode

/-! ## Flags and start-up: basic facts -/

theorem mustString_cert (f : Flags) : mustString (f.GetString "tls-cert-path") = f.tlsCertPath := rfl

theorem mustString_key (f : Flags) : mustString (f.GetString "tls-key-path") = f.tlsKeyPath := rfl

theorem mustString_ca (f : Flags) : mustString (f.GetString "tls-ca-path") = f.tlsCaPath := rfl

theorem mustString_address (f : Flags) : mustString (f.GetString "address") = f.address := rfl

theorem mustString_realm (f : Flags) : mustString (f.GetString "auth-realm") = f.authRealm := rfl

theorem anyString_three (a b c : String) :
    anyString [a, b, c] = true ↔ a ≠ "" ∨ b ≠ "" ∨ c ≠ "" := by
  simp [anyString]

theorem tlsGate_disabled (f : Flags) (env : Env)
    (h : anyString [f.tlsCertPath, f.tlsKeyPath, f.tlsCaPath] = false) :
    tlsGate f env = ([], Except.ok [ServerOption.MaxConcurrentStreams (1 <<< 20)]) := by
  simp [tlsGate, mustString_cert, mustString_key, mustString_ca, h]

theorem tlsGate_error (f : Flags) (env : Env) (err : GoError)
    (h : anyString [f.tlsCertPath, f.tlsKeyPath, f.tlsCaPath] = true)
    (hl : env.NewServerCredentials f.tlsCertPath f.tlsKeyPath f.tlsCaPath = Except.error err) :
    tlsGate f env = ([Action.NewServerCredentials f.tlsCertPath f.tlsKeyPath f.tlsCaPath],
      Except.error (ExitErrorf EX_CONFIG "invalid TLS configuration: %s" err)) := by
  simp [tlsGate, mustString_cert, mustString_key, mustString_ca, h, hl]

theorem tlsGate_ok (f : Flags) (env : Env) (creds : TransportCredentials)
    (h : anyString [f.tlsCertPath, f.tlsKeyPath, f.tlsCaPath] = true)
    (hl : env.NewServerCredentials f.tlsCertPath f.tlsKeyPath f.tlsCaPath = Except.ok creds) :
    tlsGate f env = ([Action.NewServerCredentials f.tlsCertPath f.tlsKeyPath f.tlsCaPath],
      Except.ok [ServerOption.MaxConcurrentStreams (1 <<< 20), ServerOption.Creds creds]) := by
  simp [tlsGate, mustString_cert, mustString_key, mustString_ca, h, hl]

theorem startup_manager_fails (f : Flags) (env : Env) (err : GoError)
    (h : env.NewManager (managerOptions f) = some err) :
    startup f env = ([Action.NewManager (managerOptions f)],
      Except.error (ExitErrorf EX_CONFIG "failed to create controller manager: %s" err)) := by
  simp [startup, h]

theorem startup_register_fails (f : Flags) (env : Env) (err : GoError)
    (hm : env.NewManager (managerOptions f) = none)
    (h : env.RegisterWithManager (HtpasswdServer.mk f.authRealm) (managerOptions f) = some err) :
    startup f env = ([Action.NewManager (managerOptions f),
        Action.RegisterWithManager (HtpasswdServer.mk f.authRealm)],
      Except.error (ExitErrorf EX_FAIL "htpasswd controller registration failed: %w" err)) := by
  simp [startup, hm, mustString_realm, h]

theorem startup_listen_fails (f : Flags) (env : Env) (err : GoError)
    (hm : env.NewManager (managerOptions f) = none)
    (hr : env.RegisterWithManager (HtpasswdServer.mk f.authRealm) (managerOptions f) = none)
    (h : env.Listen "tcp" f.address = Except.error err) :
    startup f env = (checksLog f, Except.error (ExitError.mk EX_CONFIG err)) := by
  simp [startup, hm, mustString_realm, hr, mustString_address, h, checksLog]

theorem startup_gate_fails (f : Flags) (env : Env) (l : Listener) (e : ExitError)
    (hg : reachesGate f env l) (h : (tlsGate f env).2 = Except.error e) :
    startup f env = (checksLog f ++ (tlsGate f env).1, Except.error e) := by
  obtain ⟨hm, hr, hl⟩ := hg
  cases hgate : tlsGate f env with
  | mk calls r =>
    rw [hgate] at h
    simp only at h
    subst h
    simp [startup, hm, mustString_realm, hr, mustString_address, hl, hgate, checksLog]

theorem startup_gate_ok (f : Flags) (env : Env) (l : Listener) (opts : List ServerOption)
    (hg : reachesGate f env l) (h : (tlsGate f env).2 = Except.ok opts) :
    startup f env = (checksLog f ++ (tlsGate f env).1 ++
        [Action.MakeErrChan, Action.SetupSignalHandler,
         Action.GoAuthServer l opts, Action.GoController (managerOptions f)],
      Except.ok (Started.mk (managerOptions f) (HtpasswdServer.mk f.authRealm) l opts)) := by
  obtain ⟨hm, hr, hl⟩ := hg
  cases hgate : tlsGate f env with
  | mk calls r =>
    rw [hgate] at h
    simp only at h
    subst h
    simp [startup, hm, mustString_realm, hr, mustString_address, hl, hgate, checksLog]

/-! ## The transition system: basic facts -/

theorem run_append (s : Sys) (xs ys : List Event) :
    run s (xs ++ ys) = run (run s xs) ys := by
  induction xs generalizing s with
  | nil => rfl
  | cons x xs ih => simp [run, ih]

theorem setQueue_result (s : Sys) (g : Service) (q : List Outcome) :
    (s.setQueue g q).result = s.result := by
  cases g <;> rfl

theorem setQueue_stopped (s : Sys) (g : Service) (q : List Outcome) :
    (s.setQueue g q).stopped = s.stopped := by
  cases g <;> rfl

theorem setQueue_sendq (s : Sys) (g : Service) (q : List Outcome) :
    (s.setQueue g q).sendq = s.sendq := by
  cases g <;> rfl

theorem setQueue_queue (s : Sys) (g h : Service) (q : List Outcome) :
    (s.setQueue g q).queue h = if h = g then some q else s.queue h := by
  cases g <;> cases h <;> simp [Sys.setQueue, Sys.queue]

theorem returns_result (s : Sys) (g : Service) (q : List Outcome) :
    (s.returns g q).result = s.result := by
  unfold Sys.returns
  split
  · rfl
  · by_cases hq : q = [] <;> simp [hq, setQueue_result]

theorem returns_stopped (s : Sys) (g : Service) (q : List Outcome) :
    (s.returns g q).stopped = s.stopped := by
  unfold Sys.returns
  split
  · rfl
  · by_cases hq : q = [] <;> simp [hq, setQueue_stopped]

theorem step_returnsEvent (s : Sys) (g : Service) (err : Option GoError) :
    step s (g.returnsEvent err) = s.returns g (g.sends err) := by
  cases g <;> rfl

theorem recv_of_returned (s : Sys) (r : Outcome) (h : s.result = some r) : s.recv = s := by
  simp [Sys.recv, h]

theorem recv_stopped (s : Sys) : s.recv.stopped = s.stopped := by
  unfold Sys.recv
  split
  · split
    · simp [setQueue_stopped]
    · rfl
  · rfl

/-- Once `RunE` has returned, its result never changes. -/
theorem step_result_stable (s : Sys) (ev : Event) (r : Outcome) (h : s.result = some r) :
    (step s ev).result = some r := by
  cases ev with
  | Signal => simpa [step] using h
  | RunServerReturns err => simpa [step, returns_result] using h
  | StartReturns err => simpa [step, returns_result] using h
  | Recv => simpa [step, recv_of_returned s r h] using h
  | RecvStop => simp [step, h]

theorem run_result_stable (s : Sys) (evs : List Event) (r : Outcome) (h : s.result = some r) :
    (run s evs).result = some r := by
  induction evs generalizing s with
  | nil => simpa [run] using h
  | cons ev evs ih => exact ih (step s ev) (step_result_stable s ev r h)

/-- If `RunE` is still blocked after a schedule, it was blocked all along. -/
theorem blocked_before (s : Sys) (ev : Event) (h : (step s ev).result = none) :
    s.result = none := by
  cases hr : s.result with
  | none => rfl
  | some r => rw [step_result_stable s ev r hr] at h; cases h

theorem step_stopped (s : Sys) (ev : Event) :
    (step s ev).stopped = (s.stopped || decide (ev = Event.Signal)) := by
  cases ev with
  | Signal => simp [step]
  | RunServerReturns err => simp [step, returns_stopped]
  | StartReturns err => simp [step, returns_stopped]
  | Recv => simp [step, recv_stopped]
  | RecvStop =>
    simp only [step]
    split
    · split <;> simp
    · simp

theorem run_stopped (s : Sys) (evs : List Event) :
    (run s evs).stopped = (s.stopped || decide (Event.Signal ∈ evs)) := by
  induction evs generalizing s with
  | nil => simp [run]
  | cons ev evs ih =>
    simp only [run, ih, step_stopped, List.mem_cons]
    by_cases h1 : ev = Event.Signal
    · simp [h1]
    · have h2 : ¬ Event.Signal = ev := fun h => h1 h.symm
      simp [h1, h2]

theorem sends_some (g : Service) (e : GoError) :
    g.sends (some e) = [some (ExitErrorf EX_FAIL g.failureFormat e), none] := by
  cases g <;> rfl

theorem sends_none (g : Service) : g.sends none = [none] := by
  cases g <;> rfl

theorem sends_ne_nil (g : Service) (err : Option GoError) : g.sends err ≠ [] := by
  cases err with
  | none => simp [sends_none]
  | some e => simp [sends_some]

theorem returns_queue (s : Sys) (g h : Service) (q : List Outcome) :
    (s.returns g q).queue h = if s.queue g = none ∧ h = g then some q else s.queue h := by
  unfold Sys.returns
  cases hg : s.queue g with
  | some q0 => simp
  | none =>
    by_cases hq : q = []
    · simp only [hq, if_true, setQueue_queue]
      by_cases hh : h = g <;> simp [hh]
    · simp only [hq, if_false]
      have : ∀ (t : Sys) (l : List Service),
          (Sys.mk t.authServer t.controller l t.stopped t.result).queue h = t.queue h := by
        intro t l; cases h <;> rfl
      rw [this, setQueue_queue]
      by_cases hh : h = g <;> simp [hh]

theorem returns_sendq (s : Sys) (g : Service) (q : List Outcome) :
    ∃ w, (s.returns g q).sendq = s.sendq ++ w := by
  unfold Sys.returns
  cases hg : s.queue g with
  | some q0 => exact ⟨[], by simp⟩
  | none =>
    by_cases hq : q = []
    · exact ⟨[], by simp [hq, setQueue_sendq]⟩
    · exact ⟨[g], by simp [hq, setQueue_sendq]⟩

/-- While `RunE` stays blocked, the oldest blocked sender stays the oldest and
keeps its pending sends. -/
theorem head_sender_step (s : Sys) (ev : Event) (g : Service) (w : List Service)
    (v : Outcome) (rest : List Outcome)
    (hq : s.sendq = g :: w) (hg : s.queue g = some (v :: rest))
    (hres : (step s ev).result = none) :
    ∃ w', (step s ev).sendq = g :: w' ∧ (step s ev).queue g = some (v :: rest) := by
  have hr : s.result = none := blocked_before s ev hres
  have key : ∀ (h : Service) (q : List Outcome),
      ∃ w', (s.returns h q).sendq = g :: w' ∧ (s.returns h q).queue g = some (v :: rest) := by
    intro h q
    obtain ⟨w1, hw1⟩ := returns_sendq s h q
    refine ⟨w ++ w1, by simp [hw1, hq], ?_⟩
    rw [returns_queue]
    by_cases hc : s.queue h = none ∧ g = h
    · obtain ⟨h1, h2⟩ := hc
      subst h2
      rw [hg] at h1
      cases h1
    · simp [hc, hg]
  cases ev with
  | Signal => exact ⟨w, by simpa [step] using hq, by simpa [step, Sys.queue] using hg⟩
  | RunServerReturns err => exact key Service.AuthServer (authServerSends err)
  | StartReturns err => exact key Service.Controller (controllerSends err)
  | Recv =>
    exfalso
    simp [step, Sys.recv, hr, hq, hg] at hres
  | RecvStop =>
    by_cases hst : s.stopped = true
    · exfalso
      simp [step, hr, hst] at hres
    · have : step s Event.RecvStop = s := by simp [step, hr, hst]
      rw [this]
      exact ⟨w, hq, hg⟩

theorem head_sender_run (evs : List Event) (s : Sys) (g : Service) (w : List Service)
    (v : Outcome) (rest : List Outcome)
    (hq : s.sendq = g :: w) (hg : s.queue g = some (v :: rest))
    (hres : (run s evs).result = none) :
    ∃ w', (run s evs).sendq = g :: w' ∧ (run s evs).queue g = some (v :: rest) := by
  induction evs generalizing s w with
  | nil => exact ⟨w, hq, hg⟩
  | cons ev evs ih =>
    have h1 : (step s ev).result = none := by
      cases hr : (step s ev).result with
      | none => rfl
      | some r =>
        have := run_result_stable (step s ev) evs r hr
        simp only [run] at hres
        rw [this] at hres
        cases hres
    obtain ⟨w1, hq1, hg1⟩ := head_sender_step s ev g w v rest hq hg h1
    exact ih (step s ev) w1 hq1 hg1 hres

/-- A receive by the blocked `select` returns the value of the oldest blocked
sender. -/
theorem recv_head (s : Sys) (g : Service) (w : List Service) (v : Outcome)
    (rest : List Outcome) (hr : s.result = none)
    (hq : s.sendq = g :: w) (hg : s.queue g = some (v :: rest)) :
    (step s Event.Recv).result = some v := by
  simp [step, Sys.recv, hr, hq, hg]

/-! ## The invariant of reachable states -/

theorem inv_init : Inv [] Sys.init := by
  constructor
  · intro _ g q hq
    cases g <;> simp [Sys.init, Sys.queue] at hq
  · intro x hx
    simp [Sys.init] at hx

theorem inv_mono (evs : List Event) (ev : Event) (s : Sys) (h : Inv evs s) :
    Inv (evs ++ [ev]) s := by
  obtain ⟨h1, h2⟩ := h
  constructor
  · intro hr g q hq
    obtain ⟨err, hm, he⟩ := h1 hr g q hq
    exact ⟨err, List.mem_append_left _ hm, he⟩
  · intro x hx
    obtain ⟨g, e, hm, he⟩ := h2 x hx
    exact ⟨g, e, List.mem_append_left _ hm, he⟩

theorem inv_returns (evs : List Event) (s : Sys) (g : Service) (err : Option GoError)
    (h : Inv evs s) : Inv (evs ++ [g.returnsEvent err]) (s.returns g (g.sends err)) := by
  obtain ⟨h1, h2⟩ := inv_mono evs (g.returnsEvent err) s h
  constructor
  · intro hr k q hq
    rw [returns_result] at hr
    rw [returns_queue] at hq
    by_cases hc : s.queue g = none ∧ k = g
    · obtain ⟨_, hk⟩ := hc
      subst hk
      simp only [*, and_self, if_true, Option.some.injEq] at hq
      exact ⟨err, by simp, hq.symm⟩
    · rw [if_neg hc] at hq
      exact h1 hr k q hq
  · intro x hx
    rw [returns_result] at hx
    exact h2 x hx

theorem inv_recv (evs : List Event) (s : Sys) (h : Inv evs s) :
    Inv (evs ++ [Event.Recv]) s.recv := by
  have hm := inv_mono evs Event.Recv s h
  cases hr : s.result with
  | some r => rw [recv_of_returned s r hr]; exact hm
  | none =>
    cases hq : s.sendq with
    | nil =>
      have : s.recv = s := by simp [Sys.recv, hr, hq]
      rw [this]; exact hm
    | cons g w =>
      cases hg : s.queue g with
      | none =>
        have : s.recv = s := by simp [Sys.recv, hr, hq, hg]
        rw [this]; exact hm
      | some q =>
        cases q with
        | nil =>
          have : s.recv = s := by simp [Sys.recv, hr, hq, hg]
          rw [this]; exact hm
        | cons v rest =>
          have hres : s.recv.result = some v := by simp [Sys.recv, hr, hq, hg]
          constructor
          · intro hn
            rw [hres] at hn
            cases hn
          · intro x hx
            rw [hres] at hx
            obtain ⟨err, hmem, he⟩ := hm.1 hr g (v :: rest) hg
            cases err with
            | none =>
              rw [sends_none] at he
              simp only [List.cons.injEq] at he
              rw [he.1] at hx
              cases hx
            | some e =>
              rw [sends_some] at he
              simp only [List.cons.injEq] at he
              refine ⟨g, e, hmem, ?_⟩
              rw [he.1] at hx
              simp only [Option.some.injEq] at hx
              exact hx.symm

theorem inv_step (evs : List Event) (s : Sys) (ev : Event) (h : Inv evs s) :
    Inv (evs ++ [ev]) (step s ev) := by
  cases ev with
  | Signal =>
    obtain ⟨h1, h2⟩ := inv_mono evs Event.Signal s h
    constructor
    · intro hr g q hq
      have hq2 : s.queue g = some q := by cases g <;> simpa [step, Sys.queue] using hq
      exact h1 (by simpa [step] using hr) g q hq2
    · intro x hx
      exact h2 x (by simpa [step] using hx)
  | RunServerReturns err => exact inv_returns evs s Service.AuthServer err h
  | StartReturns err => exact inv_returns evs s Service.Controller err h
  | Recv => exact inv_recv evs s h
  | RecvStop =>
    have hm := inv_mono evs Event.RecvStop s h
    cases hr : s.result with
    | some r =>
      have : step s Event.RecvStop = s := by simp [step, hr]
      rw [this]; exact hm
    | none =>
      by_cases hst : s.stopped = true
      · constructor
        · intro hn
          simp [step, hr, hst] at hn
        · intro x hx
          simp [step, hr, hst] at hx
      · have : step s Event.RecvStop = s := by simp [step, hr, hst]
        rw [this]; exact hm

/-- Every state reached from the initial state satisfies the invariant. -/
theorem inv_run (evs : List Event) : Inv evs (run Sys.init evs) := by
  induction evs using List.reverseRecOn with
  | nil => exact inv_init
  | append_singleton evs ev ih =>
    rw [run_append]
    exact inv_step evs (run Sys.init evs) ev ih

/-! ## Start-up: case analysis -/

theorem tlsGate_cases (f : Flags) (env : Env) :
    (anyString [f.tlsCertPath, f.tlsKeyPath, f.tlsCaPath] = false ∧
      tlsGate f env = ([], Except.ok [ServerOption.MaxConcurrentStreams (1 <<< 20)])) ∨
    (anyString [f.tlsCertPath, f.tlsKeyPath, f.tlsCaPath] = true ∧
      ∃ err, env.NewServerCredentials f.tlsCertPath f.tlsKeyPath f.tlsCaPath = Except.error err ∧
        tlsGate f env = ([Action.NewServerCredentials f.tlsCertPath f.tlsKeyPath f.tlsCaPath],
          Except.error (ExitErrorf EX_CONFIG "invalid TLS configuration: %s" err))) ∨
    (anyString [f.tlsCertPath, f.tlsKeyPath, f.tlsCaPath] = true ∧
      ∃ creds, env.NewServerCredentials f.tlsCertPath f.tlsKeyPath f.tlsCaPath = Except.ok creds ∧
        tlsGate f env = ([Action.NewServerCredentials f.tlsCertPath f.tlsKeyPath f.tlsCaPath],
          Except.ok [ServerOption.MaxConcurrentStreams (1 <<< 20), ServerOption.Creds creds])) := by
  cases hany : anyString [f.tlsCertPath, f.tlsKeyPath, f.tlsCaPath] with
  | false => exact Or.inl ⟨rfl, tlsGate_disabled f env hany⟩
  | true =>
    cases hl : env.NewServerCredentials f.tlsCertPath f.tlsKeyPath f.tlsCaPath with
    | error err => exact Or.inr (Or.inl ⟨rfl, err, rfl, tlsGate_error f env err hany hl⟩)
    | ok creds => exact Or.inr (Or.inr ⟨rfl, creds, rfl, tlsGate_ok f env creds hany hl⟩)

theorem tlsGate_log (f : Flags) (env : Env) :
    (tlsGate f env).1 = [] ∨
    (tlsGate f env).1 = [Action.NewServerCredentials f.tlsCertPath f.tlsKeyPath f.tlsCaPath] := by
  rcases tlsGate_cases f env with ⟨_, h⟩ | ⟨_, _, _, h⟩ | ⟨_, _, _, h⟩ <;> simp [h]

theorem tlsGate_no_launch (f : Flags) (env : Env) :
    ∀ a ∈ (tlsGate f env).1, a.isLaunch = false := by
  intro a ha
  rcases tlsGate_log f env with h | h <;> rw [h] at ha <;> simp at ha
  subst ha
  rfl

theorem checksLog_no_launch (f : Flags) : ∀ a ∈ checksLog f, a.isLaunch = false := by
  intro a ha
  simp [checksLog] at ha
  rcases ha with h | h | h <;> subst h <;> rfl

theorem checksLog_no_load (f : Flags) : ∀ a ∈ checksLog f, a.isLoad = false := by
  intro a ha
  simp [checksLog] at ha
  rcases ha with h | h | h <;> subst h <;> rfl

/-- The five ways start-up can go: one of the four checks fails, in order, or
all succeed and the goroutines are launched. -/
theorem startup_cases (f : Flags) (env : Env) :
    (∃ err, env.NewManager (managerOptions f) = some err ∧
      startup f env = ([Action.NewManager (managerOptions f)],
        Except.error (ExitErrorf EX_CONFIG "failed to create controller manager: %s" err))) ∨
    (∃ err, env.NewManager (managerOptions f) = none ∧
      env.RegisterWithManager (HtpasswdServer.mk f.authRealm) (managerOptions f) = some err ∧
      startup f env = ([Action.NewManager (managerOptions f),
          Action.RegisterWithManager (HtpasswdServer.mk f.authRealm)],
        Except.error (ExitErrorf EX_FAIL "htpasswd controller registration failed: %w" err))) ∨
    (∃ err, env.NewManager (managerOptions f) = none ∧
      env.RegisterWithManager (HtpasswdServer.mk f.authRealm) (managerOptions f) = none ∧
      env.Listen "tcp" f.address = Except.error err ∧
      startup f env = (checksLog f, Except.error (ExitError.mk EX_CONFIG err))) ∨
    (∃ l err, reachesGate f env l ∧
      anyString [f.tlsCertPath, f.tlsKeyPath, f.tlsCaPath] = true ∧
      env.NewServerCredentials f.tlsCertPath f.tlsKeyPath f.tlsCaPath = Except.error err ∧
      (tlsGate f env).1 = [Action.NewServerCredentials f.tlsCertPath f.tlsKeyPath f.tlsCaPath] ∧
      startup f env = (checksLog f ++ (tlsGate f env).1,
        Except.error (ExitErrorf EX_CONFIG "invalid TLS configuration: %s" err))) ∨
    (∃ l opts, reachesGate f env l ∧ (tlsGate f env).2 = Except.ok opts ∧
      startup f env = (checksLog f ++ (tlsGate f env).1 ++
          [Action.MakeErrChan, Action.SetupSignalHandler,
           Action.GoAuthServer l opts, Action.GoController (managerOptions f)],
        Except.ok (Started.mk (managerOptions f) (HtpasswdServer.mk f.authRealm) l opts))) := by
  cases hm : env.NewManager (managerOptions f) with
  | some err => exact Or.inl ⟨err, rfl, startup_manager_fails f env err hm⟩
  | none =>
    cases hr : env.RegisterWithManager (HtpasswdServer.mk f.authRealm) (managerOptions f) with
    | some err => exact Or.inr (Or.inl ⟨err, rfl, rfl, startup_register_fails f env err hm hr⟩)
    | none =>
      cases hl : env.Listen "tcp" f.address with
      | error err =>
        exact Or.inr (Or.inr (Or.inl ⟨err, rfl, rfl, rfl, startup_listen_fails f env err hm hr hl⟩))
      | ok l =>
        have hg : reachesGate f env l := ⟨hm, hr, hl⟩
        rcases tlsGate_cases f env with ⟨_, h⟩ | ⟨hany, err, hle, h⟩ | ⟨_, creds, _, h⟩
        · exact Or.inr (Or.inr (Or.inr (Or.inr
            ⟨l, _, hg, by rw [h], startup_gate_ok f env l _ hg (by rw [h])⟩)))
        · exact Or.inr (Or.inr (Or.inr (Or.inl
            ⟨l, err, hg, hany, hle, by rw [h], startup_gate_fails f env l _ hg (by rw [h])⟩)))
        · exact Or.inr (Or.inr (Or.inr (Or.inr
            ⟨l, _, hg, by rw [h], startup_gate_ok f env l _ hg (by rw [h])⟩)))

/-- A start-up that returns an error has launched no goroutine. -/
theorem startup_error_no_launch (f : Flags) (env : Env) (e : ExitError)
    (h : (startup f env).2 = Except.error e) :
    ∀ a ∈ (startup f env).1, a.isLaunch = false := by
  intro a ha
  rcases startup_cases f env with ⟨_, _, hs⟩ | ⟨_, _, _, hs⟩ | ⟨_, _, _, _, hs⟩ |
      ⟨_, _, _, _, _, _, hs⟩ | ⟨_, _, _, _, hs⟩
  · rw [hs] at ha; simp at ha; subst ha; rfl
  · rw [hs] at ha; simp at ha; rcases ha with h1 | h1 <;> subst h1 <;> rfl
  · rw [hs] at ha; exact checksLog_no_launch f a ha
  · rw [hs] at ha
    simp only [List.mem_append] at ha
    rcases ha with h1 | h1
    · exact checksLog_no_launch f a h1
    · exact tlsGate_no_launch f env a h1
  · rw [hs] at h; cases h

/-- The loader is only called once the three earlier checks have succeeded. -/
theorem load_after_checks (f : Flags) (env : Env) (a : Action)
    (ha : a ∈ (startup f env).1) (hload : a.isLoad = true) :
    a = Action.NewServerCredentials f.tlsCertPath f.tlsKeyPath f.tlsCaPath ∧
    (tlsGate f env).1 = [a] ∧
    ∃ l post, reachesGate f env l ∧ (startup f env).1 = checksLog f ++ a :: post ∧
      ∀ b ∈ post, b.isLoad = false := by
  have hgate : ∀ b ∈ (tlsGate f env).1,
      b = Action.NewServerCredentials f.tlsCertPath f.tlsKeyPath f.tlsCaPath ∧
      (tlsGate f env).1 = [b] := by
    intro b hb
    rcases tlsGate_log f env with h | h
    · rw [h] at hb; simp at hb
    · rw [h] at hb; simp at hb; subst hb; exact ⟨rfl, h⟩
  rcases startup_cases f env with ⟨_, _, hs⟩ | ⟨_, _, _, hs⟩ | ⟨_, _, _, _, hs⟩ |
      ⟨l, _, hg, _, _, hlog, hs⟩ | ⟨l, opts, hg, _, hs⟩
  · rw [hs] at ha; simp at ha; subst ha; cases hload
  · rw [hs] at ha; simp at ha; rcases ha with h1 | h1 <;> subst h1 <;> cases hload
  · rw [hs] at ha
    have := checksLog_no_load f a ha
    rw [this] at hload; cases hload
  · rw [hs] at ha
    simp only [List.mem_append] at ha
    rcases ha with h1 | h1
    · have := checksLog_no_load f a h1
      rw [this] at hload; cases hload
    · obtain ⟨e1, e2⟩ := hgate a h1
      refine ⟨e1, e2, l, [], hg, ?_, by simp⟩
      rw [hs, e2]
  · rw [hs] at ha
    simp only [List.mem_append] at ha
    rcases ha with (h1 | h1) | h1
    · have := checksLog_no_load f a h1
      rw [this] at hload; cases hload
    · obtain ⟨e1, e2⟩ := hgate a h1
      refine ⟨e1, e2, l, [Action.MakeErrChan, Action.SetupSignalHandler,
        Action.GoAuthServer l opts, Action.GoController (managerOptions f)], hg, ?_, ?_⟩
      · rw [hs, e2]; simp
      · intro b hb
        simp at hb
        rcases hb with h2 | h2 | h2 | h2 <;> subst h2 <;> rfl
    · simp at h1
      rcases h1 with h2 | h2 | h2 | h2 <;> subst h2 <;> cases hload

theorem startup_ok_gate (f : Flags) (env : Env) (st : Started)
    (h : (startup f env).2 = Except.ok st) :
    (tlsGate f env).2 = Except.ok st.opts ∧ ∃ l, reachesGate f env l := by
  rcases startup_cases f env with ⟨_, _, hs⟩ | ⟨_, _, _, hs⟩ | ⟨_, _, _, _, hs⟩ |
      ⟨_, _, _, _, _, _, hs⟩ | ⟨l, opts, hg, hgate, hs⟩
  · rw [hs] at h; cases h
  · rw [hs] at h; cases h
  · rw [hs] at h; cases h
  · rw [hs] at h; cases h
  · rw [hs] at h
    simp only [Except.ok.injEq] at h
    subst h
    exact ⟨hgate, l, hg⟩

theorem tlsPathsSet_partial (f : Flags) (h : tlsPathsSet f = 1 ∨ tlsPathsSet f = 2) :
    anyString [f.tlsCertPath, f.tlsKeyPath, f.tlsCaPath] = true ∧
    (f.tlsCertPath = "" ∨ f.tlsKeyPath = "" ∨ f.tlsCaPath = "") := by
  by_cases h1 : f.tlsCertPath = "" <;> by_cases h2 : f.tlsKeyPath = "" <;>
    by_cases h3 : f.tlsCaPath = "" <;>
    simp [tlsPathsSet, anyString, List.filter_cons, h1, h2, h3] at h ⊢

theorem specLoader_missing (fs : FileSystem) (c k a : String)
    (h : c = "" ∨ k = "" ∨ a = "") :
    auth.NewServerCredentials fs c k a = Except.error (GoError.leaf "missing credential file") := by
  simp [auth.NewServerCredentials, h]

theorem wrapsArg_failureFormat (g : Service) : wrapsArg g.failureFormat = true := by
  cases g <;> decide

/-- The failure a service goroutine sends wraps the error of its run-loop. -/
theorem unwrap_failure (g : Service) (e : GoError) :
    (ExitErrorf EX_FAIL g.failureFormat e).Err.Unwrap = some e := by
  simp [ExitErrorf, GoError.Unwrap, wrapsArg_failureFormat]

/-- Splitting a list after a prefix that holds no element of a given kind: an
element of that kind lies in the remainder. -/
theorem split_after_prefix {α : Type} (P : α → Bool) (L T pre post : List α) (a : α)
    (hL : ∀ x ∈ L, P x = false) (ha : P a = true) (h : L ++ T = pre ++ a :: post) :
    ∃ m, pre = L ++ m ∧ T = m ++ a :: post := by
  rcases List.append_eq_append_iff.mp h with ⟨m, h1, h2⟩ | ⟨c, h1, h2⟩
  · exact ⟨m, h1, h2⟩
  · cases c with
    | nil => exact ⟨[], by simpa using h1.symm, by simpa using h2.symm⟩
    | cons x c =>
      simp only [List.cons_append, List.cons.injEq] at h2
      have hx : x ∈ L := by rw [h1]; simp
      have := hL x hx
      rw [← h2.1, ha] at this
      cases this

theorem RunE_of_startup_error (f : Flags) (env : Env) (schedule : List Event)
    (log : List Action) (e : ExitError) (hs : startup f env = (log, Except.error e)) :
    RunE f env schedule = some (some e) := by
  simp [RunE, hs]

theorem RunE_of_startup_ok (f : Flags) (env : Env) (schedule : List Event) (st : Started)
    (hs : (startup f env).2 = Except.ok st) :
    RunE f env schedule = (run Sys.init schedule).result := by
  simp [RunE, hs]

/-- Every error returned by the command has an origin, and the class expected
of that origin. -/
theorem RunE_error_has_origin (f : Flags) (env : Env) (schedule : List Event) (x : ExitError)
    (h : RunE f env schedule = some (some x)) :
    ∃ o, ArisesFrom f env schedule x o ∧ x.Code = o.exitClass := by
  rcases startup_cases f env with ⟨err, hm, hs⟩ | ⟨err, hm, hr, hs⟩ | ⟨err, hm, hr, hl, hs⟩ |
      ⟨l, err, hg, hany, hl, _, hs⟩ | ⟨l, opts, hg, _, hs⟩
  · rw [RunE_of_startup_error f env schedule _ _ hs] at h
    simp only [Option.some.injEq] at h
    subst h
    exact ⟨Origin.managerConstruction, ⟨err, hm, rfl⟩, rfl⟩
  · rw [RunE_of_startup_error f env schedule _ _ hs] at h
    simp only [Option.some.injEq] at h
    subst h
    exact ⟨Origin.controllerRegistration, ⟨hm, err, hr, rfl⟩, rfl⟩
  · rw [RunE_of_startup_error f env schedule _ _ hs] at h
    simp only [Option.some.injEq] at h
    subst h
    exact ⟨Origin.listenerBind, ⟨hm, hr, err, hl, rfl⟩, rfl⟩
  · rw [RunE_of_startup_error f env schedule _ _ hs] at h
    simp only [Option.some.injEq] at h
    subst h
    exact ⟨Origin.tlsLoading, ⟨⟨l, hg⟩, hany, err, hl, rfl⟩, rfl⟩
  · have hok : (startup f env).2 = Except.ok
        (Started.mk (managerOptions f) (HtpasswdServer.mk f.authRealm) l opts) := by rw [hs]
    rw [RunE_of_startup_ok f env schedule _ hok] at h
    obtain ⟨g, e, hmem, hx⟩ := (inv_run schedule).2 x h
    subst hx
    cases g with
    | AuthServer => exact ⟨Origin.authServerRun, ⟨⟨_, hok⟩, e, hmem, rfl⟩, rfl⟩
    | Controller => exact ⟨Origin.controllerRun, ⟨⟨_, hok⟩, e, hmem, rfl⟩, rfl⟩

/-- An error returned by the command has the class expected of any origin it
comes from. -/
theorem RunE_origin_class (f : Flags) (env : Env) (schedule : List Event) (x : ExitError)
    (h : RunE f env schedule = some (some x)) (o : Origin)
    (ho : ArisesFrom f env schedule x o) : x.Code = o.exitClass := by
  have hruntime : (∃ st, (startup f env).2 = Except.ok st) → x.Code = EX_FAIL := by
    rintro ⟨st, hst⟩
    rw [RunE_of_startup_ok f env schedule st hst] at h
    obtain ⟨g, e, _, hx⟩ := (inv_run schedule).2 x h
    rw [hx]
    rfl
  cases o with
  | managerConstruction =>
    obtain ⟨err, hm, _⟩ := ho
    rw [RunE_of_startup_error f env schedule _ _ (startup_manager_fails f env err hm)] at h
    simp only [Option.some.injEq] at h
    subst h
    rfl
  | controllerRegistration =>
    obtain ⟨hm, err, hr, _⟩ := ho
    rw [RunE_of_startup_error f env schedule _ _ (startup_register_fails f env err hm hr)] at h
    simp only [Option.some.injEq] at h
    subst h
    rfl
  | listenerBind =>
    obtain ⟨hm, hr, err, hl, _⟩ := ho
    rw [RunE_of_startup_error f env schedule _ _ (startup_listen_fails f env err hm hr hl)] at h
    simp only [Option.some.injEq] at h
    subst h
    rfl
  | tlsLoading =>
    obtain ⟨⟨l, hg⟩, hany, err, hl, _⟩ := ho
    have hgate := tlsGate_error f env err hany hl
    rw [RunE_of_startup_error f env schedule _ _
      (startup_gate_fails f env l _ hg (by rw [hgate]))] at h
    simp only [Option.some.injEq] at h
    subst h
    rfl
  | authServerRun => exact hruntime ho.1
  | controllerRun => exact hruntime ho.1

/-! ## The claims -/

/-- C1: with the credential loader of the spec, whenever exactly one or exactly
two of the three TLS paths are set, the gate calls the loader and returns the
`EX_CONFIG` error "invalid TLS configuration"; start-up never succeeds (no server
options, no partial bundle, no run without transport security), no goroutine is
launched, and once the three earlier checks have passed the command returns that
error under every schedule. -/
theorem gate_rejects_partial_tls_paths (f : Flags) (env : Env) (fs : FileSystem)
    (hloader : env.NewServerCredentials = auth.NewServerCredentials fs)
    (hcount : tlsPathsSet f = 1 ∨ tlsPathsSet f = 2) :
    ∃ err,
      tlsGate f env = ([Action.NewServerCredentials f.tlsCertPath f.tlsKeyPath f.tlsCaPath],
        Except.error (ExitErrorf EX_CONFIG "invalid TLS configuration: %s" err)) ∧
      (ExitErrorf EX_CONFIG "invalid TLS configuration: %s" err).Code = EX_CONFIG ∧
      (∀ st, (startup f env).2 ≠ Except.ok st) ∧
      (∀ a ∈ (startup f env).1, a.isLaunch = false) ∧
      (∀ l, reachesGate f env l → ∀ schedule, RunE f env schedule =
        some (some (ExitErrorf EX_CONFIG "invalid TLS configuration: %s" err))) := by
  obtain ⟨hany, hempty⟩ := tlsPathsSet_partial f hcount
  have hl : env.NewServerCredentials f.tlsCertPath f.tlsKeyPath f.tlsCaPath =
      Except.error (GoError.leaf "missing credential file") := by
    rw [hloader]
    exact specLoader_missing fs _ _ _ hempty
  have hgate := tlsGate_error f env _ hany hl
  have hnot : ∀ st, (startup f env).2 ≠ Except.ok st := by
    intro st hst
    have := (startup_ok_gate f env st hst).1
    rw [hgate] at this
    cases this
  refine ⟨GoError.leaf "missing credential file", hgate, rfl, hnot, ?_, ?_⟩
  · cases hs : (startup f env).2 with
    | ok st => exact absurd hs (hnot st)
    | error e => exact startup_error_no_launch f env e hs
  · intro l hg schedule
    have hs := startup_gate_fails f env l _ hg (by rw [hgate])
    simp [RunE, hs]

/-- C1, at a concrete input: only `--tls-cert-path` is given and no file exists. -/
theorem gate_rejects_partial_tls_paths_witness :
    tlsPathsSet Flags.certOnly = 1 ∧
    ∃ err,
      tlsGate Flags.certOnly (Env.healthy (auth.NewServerCredentials FileSystem.empty)) =
        ([Action.NewServerCredentials "/tls/tls.crt" "" ""],
          Except.error (ExitErrorf EX_CONFIG "invalid TLS configuration: %s" err)) ∧
      (ExitErrorf EX_CONFIG "invalid TLS configuration: %s" err).Code = EX_CONFIG ∧
      (∀ st, (startup Flags.certOnly
        (Env.healthy (auth.NewServerCredentials FileSystem.empty))).2 ≠ Except.ok st) ∧
      (∀ a ∈ (startup Flags.certOnly
        (Env.healthy (auth.NewServerCredentials FileSystem.empty))).1, a.isLaunch = false) ∧
      (∀ l, reachesGate Flags.certOnly
          (Env.healthy (auth.NewServerCredentials FileSystem.empty)) l →
        ∀ schedule, RunE Flags.certOnly
          (Env.healthy (auth.NewServerCredentials FileSystem.empty)) schedule =
          some (some (ExitErrorf EX_CONFIG "invalid TLS configuration: %s" err))) :=
  ⟨by decide, gate_rejects_partial_tls_paths Flags.certOnly
    (Env.healthy (auth.NewServerCredentials FileSystem.empty)) FileSystem.empty rfl
    (Or.inl (by decide))⟩

/-- C2: when all three TLS paths are the empty string, the gate calls no loader
and returns no error, its server options are the max-concurrent-streams option
alone (no transport credentials), no start-up ever calls the loader, and once the
three earlier checks have passed the authorization server is launched with
exactly that one option. -/
theorem gate_disabled_without_tls_paths (f : Flags) (env : Env)
    (hcert : f.tlsCertPath = "") (hkey : f.tlsKeyPath = "") (hca : f.tlsCaPath = "") :
    tlsGate f env = ([], Except.ok [ServerOption.MaxConcurrentStreams 1048576]) ∧
    (∀ a ∈ (startup f env).1, a.isLoad = false) ∧
    (∀ l, reachesGate f env l →
      startup f env = (checksLog f ++
          [Action.MakeErrChan, Action.SetupSignalHandler,
           Action.GoAuthServer l [ServerOption.MaxConcurrentStreams 1048576],
           Action.GoController (managerOptions f)],
        Except.ok (Started.mk (managerOptions f) (HtpasswdServer.mk f.authRealm) l
          [ServerOption.MaxConcurrentStreams 1048576]))) := by
  have hany : anyString [f.tlsCertPath, f.tlsKeyPath, f.tlsCaPath] = false := by
    simp [anyString, hcert, hkey, hca]
  have hgate : tlsGate f env = ([], Except.ok [ServerOption.MaxConcurrentStreams 1048576]) :=
    tlsGate_disabled f env hany
  refine ⟨hgate, ?_, ?_⟩
  · intro a ha
    cases hload : a.isLoad with
    | false => rfl
    | true =>
      have := (load_after_checks f env a ha hload).2.1
      rw [hgate] at this
      cases this
  · intro l hg
    have hs := startup_gate_ok f env l _ hg (by rw [hgate])
    rw [hs, hgate]
    simp

/-- C2, at a concrete input: the registered defaults, where no TLS path is set,
in an environment where the three earlier checks pass. -/
theorem gate_disabled_without_tls_paths_witness :
    reachesGate Flags.defaults (Env.healthy (auth.NewServerCredentials FileSystem.sample))
      (Listener.mk "tcp" ":9090") ∧
    startup Flags.defaults (Env.healthy (auth.NewServerCredentials FileSystem.sample)) =
      ([Action.NewManager (ManagerOptions.mk none ":8080"),
        Action.RegisterWithManager (HtpasswdServer.mk "default"),
        Action.Listen "tcp" ":9090",
        Action.MakeErrChan, Action.SetupSignalHandler,
        Action.GoAuthServer (Listener.mk "tcp" ":9090")
          [ServerOption.MaxConcurrentStreams 1048576],
        Action.GoController (ManagerOptions.mk none ":8080")],
       Except.ok (Started.mk (ManagerOptions.mk none ":8080") (HtpasswdServer.mk "default")
        (Listener.mk "tcp" ":9090") [ServerOption.MaxConcurrentStreams 1048576])) :=
  ⟨⟨rfl, rfl, rfl⟩,
   (gate_disabled_without_tls_paths Flags.defaults
      (Env.healthy (auth.NewServerCredentials FileSystem.sample)) rfl rfl rfl).2.2
      (Listener.mk "tcp" ":9090") ⟨rfl, rfl, rfl⟩⟩

/-- C8: when the flags `tls-cert-path`, `tls-key-path` and `tls-ca-path` are all
set and the loader accepts the material, the gate makes a single loader call
whose first, second and third arguments are the values of those three flags in
that order, and the server options are the max-concurrent-streams option
followed by the credentials the loader returned; once the three earlier checks
have passed, the whole start-up calls the loader exactly once and launches the
authorization server with those options. -/
theorem gate_enabled_with_valid_material (f : Flags) (env : Env) (creds : TransportCredentials)
    (hset : f.tlsCertPath ≠ "" ∧ f.tlsKeyPath ≠ "" ∧ f.tlsCaPath ≠ "")
    (hvalid : env.NewServerCredentials f.tlsCertPath f.tlsKeyPath f.tlsCaPath = Except.ok creds) :
    tlsGate f env =
      ([Action.NewServerCredentials (mustString (f.GetString "tls-cert-path"))
          (mustString (f.GetString "tls-key-path")) (mustString (f.GetString "tls-ca-path"))],
        Except.ok [ServerOption.MaxConcurrentStreams 1048576, ServerOption.Creds creds]) ∧
    (∀ l, reachesGate f env l →
      (startup f env).1.countP Action.isLoad = 1 ∧
      Action.GoAuthServer l [ServerOption.MaxConcurrentStreams 1048576, ServerOption.Creds creds]
        ∈ (startup f env).1 ∧
      (startup f env).2 = Except.ok (Started.mk (managerOptions f)
        (HtpasswdServer.mk f.authRealm) l
        [ServerOption.MaxConcurrentStreams 1048576, ServerOption.Creds creds])) := by
  have hany : anyString [f.tlsCertPath, f.tlsKeyPath, f.tlsCaPath] = true := by
    simp [anyString, hset.1]
  have hgate := tlsGate_ok f env creds hany hvalid
  refine ⟨hgate, ?_⟩
  intro l hg
  have hs := startup_gate_ok f env l _ hg (by rw [hgate])
  rw [hs, hgate]
  refine ⟨?_, ?_, rfl⟩
  · simp [checksLog, List.countP_cons, Action.isLoad]
  · simp

/-- C8, at a concrete input: three paths naming a matching certificate, key and
bundle, loaded by the loader of the spec. -/
theorem gate_enabled_with_valid_material_witness :
    tlsGate Flags.withTLS (Env.healthy (auth.NewServerCredentials FileSystem.sample)) =
      ([Action.NewServerCredentials "/tls/tls.crt" "/tls/tls.key" "/tls/ca.crt"],
        Except.ok [ServerOption.MaxConcurrentStreams 1048576,
          ServerOption.Creds (TransportCredentials.mk "CERT" "KEY" "CA")]) :=
  (gate_enabled_with_valid_material Flags.withTLS
    (Env.healthy (auth.NewServerCredentials FileSystem.sample))
    (TransportCredentials.mk "CERT" "KEY" "CA") (by decide) rfl).1

/-- C10: the start-up checks run in the order manager construction, controller
registration, listener bind, TLS gate, and the first failing check ends
start-up with its own error: a failed construction is followed by nothing; a
failed registration only by the construction before it; a failed bind returns
the bind error after exactly the three first calls, with no loader call,
whatever the TLS paths and the loader would give; a failed gate returns its
error after the three checks and the loader call; and any loader call in any
start-up comes right after the three checks, with the manager constructed, the
controller registered and the listener bound. -/
theorem startup_checks_in_order (f : Flags) (env : Env) :
    (∀ err, env.NewManager (managerOptions f) = some err →
      startup f env = ([Action.NewManager (managerOptions f)],
        Except.error (ExitErrorf EX_CONFIG "failed to create controller manager: %s" err))) ∧
    (∀ err, env.NewManager (managerOptions f) = none →
      env.RegisterWithManager (HtpasswdServer.mk f.authRealm) (managerOptions f) = some err →
      startup f env = ([Action.NewManager (managerOptions f),
          Action.RegisterWithManager (HtpasswdServer.mk f.authRealm)],
        Except.error (ExitErrorf EX_FAIL "htpasswd controller registration failed: %w" err))) ∧
    (∀ err, env.NewManager (managerOptions f) = none →
      env.RegisterWithManager (HtpasswdServer.mk f.authRealm) (managerOptions f) = none →
      env.Listen "tcp" f.address = Except.error err →
      startup f env = ([Action.NewManager (managerOptions f),
          Action.RegisterWithManager (HtpasswdServer.mk f.authRealm),
          Action.Listen "tcp" f.address],
        Except.error (ExitError.mk EX_CONFIG err)) ∧
      ∀ a ∈ (startup f env).1, a.isLoad = false) ∧
    (∀ l e, reachesGate f env l → (tlsGate f env).2 = Except.error e →
      startup f env = ([Action.NewManager (managerOptions f),
          Action.RegisterWithManager (HtpasswdServer.mk f.authRealm),
          Action.Listen "tcp" f.address,
          Action.NewServerCredentials f.tlsCertPath f.tlsKeyPath f.tlsCaPath],
        Except.error e)) ∧
    (∀ a ∈ (startup f env).1, a.isLoad = true →
      ∃ l post, reachesGate f env l ∧
        (startup f env).1 = [Action.NewManager (managerOptions f),
          Action.RegisterWithManager (HtpasswdServer.mk f.authRealm),
          Action.Listen "tcp" f.address] ++ a :: post) := by
  refine ⟨startup_manager_fails f env, startup_register_fails f env, ?_, ?_, ?_⟩
  · intro err hm hr hl
    have hs := startup_listen_fails f env err hm hr hl
    refine ⟨by rw [hs]; rfl, ?_⟩
    intro a ha
    rw [hs] at ha
    exact checksLog_no_load f a ha
  · intro l e hg he
    have hs := startup_gate_fails f env l e hg he
    rcases tlsGate_cases f env with ⟨_, h⟩ | ⟨_, _, _, h⟩ | ⟨_, _, _, h⟩
    · rw [h] at he; cases he
    · rw [hs, h]; rfl
    · rw [h] at he; cases he
  · intro a ha hload
    obtain ⟨_, _, l, post, hg, hlog, _⟩ := load_after_checks f env a ha hload
    exact ⟨l, post, hg, by rw [hlog]; rfl⟩

/-- C10, at a concrete input: the address cannot be bound and the only TLS path
given names no loadable file; the command stops at the bind error without
calling the loader. -/
theorem startup_checks_in_order_witness :
    startup Flags.certOnly Env.bindFails =
      ([Action.NewManager (ManagerOptions.mk none ":8080"),
        Action.RegisterWithManager (HtpasswdServer.mk "default"),
        Action.Listen "tcp" ":9090"],
       Except.error (ExitError.mk EX_CONFIG
        (GoError.leaf "listen tcp :9090: bind: address already in use"))) ∧
    ∀ a ∈ (startup Flags.certOnly Env.bindFails).1, a.isLoad = false :=
  (startup_checks_in_order Flags.certOnly Env.bindFails).2.2.1
    (GoError.leaf "listen tcp :9090: bind: address already in use") rfl rfl rfl

/-- C7: in every start-up, at the point of the log where a service goroutine is
launched, the three checks have passed and the TLS gate has returned its server
options (which are the options the authorization server is launched with), every
call made by the gate lies before the launch and no loader call follows it; and
a start-up that returns an error, of the configuration class or not, has
launched no goroutine. -/
theorem gate_finishes_before_launch (f : Flags) (env : Env) :
    (∀ pre a post, (startup f env).1 = pre ++ a :: post → a.isLaunch = true →
      (∃ l opts, reachesGate f env l ∧ (tlsGate f env).2 = Except.ok opts ∧
        (startup f env).2 = Except.ok
          (Started.mk (managerOptions f) (HtpasswdServer.mk f.authRealm) l opts) ∧
        ∀ l1 o1, a = Action.GoAuthServer l1 o1 → o1 = opts) ∧
      (∀ c ∈ (tlsGate f env).1, c ∈ pre) ∧
      (∀ b ∈ post, b.isLoad = false)) ∧
    (∀ e, (startup f env).2 = Except.error e →
      ∀ a ∈ (startup f env).1, a.isLaunch = false) := by
  refine ⟨?_, startup_error_no_launch f env⟩
  intro pre a post hlog hla
  have hmem : a ∈ (startup f env).1 := by rw [hlog]; simp
  cases hres : (startup f env).2 with
  | error e =>
    have := startup_error_no_launch f env e hres a hmem
    rw [hla] at this
    cases this
  | ok st =>
    rcases startup_cases f env with ⟨_, _, hs⟩ | ⟨_, _, _, hs⟩ | ⟨_, _, _, _, hs⟩ |
        ⟨_, _, _, _, _, _, hs⟩ | ⟨l, opts, hg, hgate, hs⟩
    · rw [hs] at hres; cases hres
    · rw [hs] at hres; cases hres
    · rw [hs] at hres; cases hres
    · rw [hs] at hres; cases hres
    · have hL : ∀ x ∈ checksLog f ++ (tlsGate f env).1, Action.isLaunch x = false := by
        intro x hx
        rcases List.mem_append.mp hx with h1 | h1
        · exact checksLog_no_launch f x h1
        · exact tlsGate_no_launch f env x h1
      have hlog2 : (checksLog f ++ (tlsGate f env).1) ++
          [Action.MakeErrChan, Action.SetupSignalHandler,
           Action.GoAuthServer l opts, Action.GoController (managerOptions f)] =
          pre ++ a :: post := by
        rw [← hlog, hs]
      obtain ⟨m, hpre, htail⟩ := split_after_prefix Action.isLaunch _ _ pre post a hL hla hlog2
      have hin : ∀ b, b ∈ m ++ a :: post →
          b = Action.MakeErrChan ∨ b = Action.SetupSignalHandler ∨
          b = Action.GoAuthServer l opts ∨ b = Action.GoController (managerOptions f) := by
        intro b hb
        rw [← htail] at hb
        simpa using hb
      refine ⟨⟨l, opts, hg, hgate, by rw [← hres, hs], ?_⟩, ?_, ?_⟩
      · intro l1 o1 ha
        have := hin a (by simp)
        rw [ha] at this
        simp at this
        exact this.2
      · intro c hc
        rw [hpre]
        simp [hc]
      · intro b hb
        rcases hin b (by simp [hb]) with h1 | h1 | h1 | h1 <;> rw [h1] <;> rfl

/-- C7, at a concrete input: with all checks passing and TLS enabled, the
authorization server is launched after the loader call, with the gate's
options. -/
theorem gate_finishes_before_launch_witness :
    (∃ l opts, reachesGate Flags.withTLS
        (Env.healthy (auth.NewServerCredentials FileSystem.sample)) l ∧
      (tlsGate Flags.withTLS (Env.healthy (auth.NewServerCredentials FileSystem.sample))).2 =
        Except.ok opts ∧
      (startup Flags.withTLS (Env.healthy (auth.NewServerCredentials FileSystem.sample))).2 =
        Except.ok (Started.mk (managerOptions Flags.withTLS)
          (HtpasswdServer.mk Flags.withTLS.authRealm) l opts) ∧
      ∀ l1 o1, Action.GoAuthServer (Listener.mk "tcp" ":9090")
          [ServerOption.MaxConcurrentStreams 1048576,
           ServerOption.Creds (TransportCredentials.mk "CERT" "KEY" "CA")] =
        Action.GoAuthServer l1 o1 → o1 = opts) ∧
    (∀ c ∈ (tlsGate Flags.withTLS
        (Env.healthy (auth.NewServerCredentials FileSystem.sample))).1,
      c ∈ [Action.NewManager (ManagerOptions.mk none ":8080"),
        Action.RegisterWithManager (HtpasswdServer.mk "default"),
        Action.Listen "tcp" ":9090",
        Action.NewServerCredentials "/tls/tls.crt" "/tls/tls.key" "/tls/ca.crt",
        Action.MakeErrChan, Action.SetupSignalHandler]) ∧
    (∀ b ∈ [Action.GoController (ManagerOptions.mk none ":8080")], b.isLoad = false) :=
  (gate_finishes_before_launch Flags.withTLS
    (Env.healthy (auth.NewServerCredentials FileSystem.sample))).1
    [Action.NewManager (ManagerOptions.mk none ":8080"),
      Action.RegisterWithManager (HtpasswdServer.mk "default"),
      Action.Listen "tcp" ":9090",
      Action.NewServerCredentials "/tls/tls.crt" "/tls/tls.key" "/tls/ca.crt",
      Action.MakeErrChan, Action.SetupSignalHandler]
    (Action.GoAuthServer (Listener.mk "tcp" ":9090")
      [ServerOption.MaxConcurrentStreams 1048576,
       ServerOption.Creds (TransportCredentials.mk "CERT" "KEY" "CA")])
    [Action.GoController (ManagerOptions.mk none ":8080")] rfl rfl

/-- C3 (the code departs from it): a goroutine whose run-loop returned an error
has two sends on `errChan` in its program, the wrapped error and then `nil`,
instead of the single error; after a clean return it has the single `nil`. In
the run where the authorization server fails and its error is received, the
goroutine goes on to its second send and stays blocked in it. -/
theorem failed_run_loop_sends_twice :
    (∀ e, authServerSends (some e) =
      [some (ExitErrorf EX_FAIL "authorization server failed: %w" e), none]) ∧
    (∀ e, controllerSends (some e) =
      [some (ExitErrorf EX_FAIL "controller manager failed: %w" e), none]) ∧
    authServerSends none = [none] ∧ controllerSends none = [none] ∧
    feasible Sys.init Schedule.failureOnly = true ∧
    (run Sys.init Schedule.failureOnly).authServer = some [none] ∧
    (run Sys.init Schedule.failureOnly).sendq = [Service.AuthServer] := by
  refine ⟨fun _ => rfl, fun _ => rfl, rfl, rfl, ?_, ?_, ?_⟩ <;> decide

/-- C4: from any state in which no goroutine is waiting to send, if the run-loop
of service `g` is the first to return (with `err`), `RunE` is still blocked in
`select` some events later and the `select` then takes its receive case, with
whatever happens in between and afterwards (the other service failing, the
signal), then `RunE` returns
the first outcome of `g`: for `err = nil` it returns `nil`, and for an error `e`
it returns the `EX_FAIL` error of `g` that wraps `e`. -/
theorem first_outcome_is_returned (g : Service) (err : Option GoError) (s : Sys)
    (mid post : List Event)
    (hquiet : s.sendq = []) (hrunning : s.queue g = none)
    (hmid : (run s (g.returnsEvent err :: mid)).result = none) :
    (run s (g.returnsEvent err :: (mid ++ Event.Recv :: post))).result =
      some (err.map (ExitErrorf EX_FAIL g.failureFormat)) ∧
    (err = none →
      (run s (g.returnsEvent err :: (mid ++ Event.Recv :: post))).result = some none) ∧
    (∀ e, err = some e →
      ∃ x, (run s (g.returnsEvent err :: (mid ++ Event.Recv :: post))).result = some (some x) ∧
        x.Code = EX_FAIL ∧ x.Err.Unwrap = some e) := by
  have hsends : ∃ rest, g.sends err = err.map (ExitErrorf EX_FAIL g.failureFormat) :: rest := by
    cases err with
    | none => exact ⟨[], by rw [sends_none]; rfl⟩
    | some e => exact ⟨[none], by rw [sends_some]; rfl⟩
  obtain ⟨rest, hrest⟩ := hsends
  have hq1 : (step s (g.returnsEvent err)).sendq = [g] := by
    rw [step_returnsEvent]
    simp [Sys.returns, hrunning, sends_ne_nil, setQueue_sendq, hquiet]
  have hg1 : (step s (g.returnsEvent err)).queue g =
      some (err.map (ExitErrorf EX_FAIL g.failureFormat) :: rest) := by
    rw [step_returnsEvent, returns_queue, ← hrest]
    simp [hrunning]
  simp only [run] at hmid
  obtain ⟨w, hq2, hg2⟩ := head_sender_run mid _ g [] _ rest hq1 hg1 hmid
  have hrecv := recv_head _ g w _ rest hmid hq2 hg2
  have hfinal : (run s (g.returnsEvent err :: (mid ++ Event.Recv :: post))).result =
      some (err.map (ExitErrorf EX_FAIL g.failureFormat)) := by
    simp only [run, run_append]
    exact run_result_stable _ post _ hrecv
  refine ⟨hfinal, ?_, ?_⟩
  · intro he
    rw [hfinal, he]
    rfl
  · intro e he
    exact ⟨ExitErrorf EX_FAIL g.failureFormat e, by rw [hfinal, he]; rfl, rfl,
      unwrap_failure g e⟩

/-- C4, at a concrete input: the authorization server fails first, the
controller fails next, the `select` receives, and the signal comes last. -/
theorem first_outcome_is_returned_witness :
    (run Sys.init [Event.RunServerReturns (some (GoError.leaf "grpc: serve failed")),
      Event.StartReturns (some (GoError.leaf "leader election lost")), Event.Recv,
      Event.Signal]).result =
      some (some (ExitErrorf EX_FAIL "authorization server failed: %w"
        (GoError.leaf "grpc: serve failed"))) :=
  (first_outcome_is_returned Service.AuthServer (some (GoError.leaf "grpc: serve failed"))
    Sys.init [Event.StartReturns (some (GoError.leaf "leader election lost"))] [Event.Signal]
    rfl rfl (by decide)).1

/-- C5 (as stated, refuted): the signal closes `stopChan` while neither service
has reported anything, the authorization server's run-loop fails afterwards, and
the `select`, with both of its cases ready, takes the receive: `RunE` returns
the failure, not `nil`. Every event of the schedule can happen at its turn. -/
theorem signal_first_yet_failure_returned :
    feasible Sys.init Schedule.signalThenFailure = true ∧
    (run Sys.init [Event.Signal]).stopped = true ∧
    (run Sys.init [Event.Signal]).sendq = [] ∧
    (run Sys.init [Event.Signal]).authServer = none ∧
    (run Sys.init [Event.Signal]).controller = none ∧
    (run Sys.init [Event.Signal]).result = none ∧
    enabled (run Sys.init [Event.Signal,
      Event.RunServerReturns (some (GoError.leaf "grpc: serve failed"))]) Event.Recv = true ∧
    enabled (run Sys.init [Event.Signal,
      Event.RunServerReturns (some (GoError.leaf "grpc: serve failed"))]) Event.RecvStop = true ∧
    (run Sys.init Schedule.signalThenFailure).result =
      some (some (ExitErrorf EX_FAIL "authorization server failed: %w"
        (GoError.leaf "grpc: serve failed"))) ∧
    (run Sys.init Schedule.signalThenFailure).result ≠ some none := by
  refine ⟨?_, ?_, ?_, ?_, ?_, ?_, ?_, ?_, ?_, ?_⟩ <;> decide

/-- C5 (amended): when `stopChan` is closed and `RunE` is still blocked, the
stop case of the `select` can be taken, and taking it makes `RunE` return `nil`
in every state of the two services, a result no later event changes; and when
moreover no goroutine is waiting to send, whatever happens next either leaves
`RunE` blocked or makes it return `nil`. -/
theorem stop_case_returns_nil (s : Sys) (post : List Event)
    (hblocked : s.result = none) (hstopped : s.stopped = true) :
    enabled s Event.RecvStop = true ∧
    (run s (Event.RecvStop :: post)).result = some none ∧
    (s.sendq = [] →
      ∀ ev, (step s ev).result = none ∨ (step s ev).result = some none) := by
  have hstop : (step s Event.RecvStop).result = some none := by
    simp [step, hblocked, hstopped]
  refine ⟨by simp [enabled, hblocked, hstopped], ?_, ?_⟩
  · simp only [run]
    exact run_result_stable _ post _ hstop
  · intro hq ev
    cases ev with
    | Signal => left; simpa [step] using hblocked
    | RunServerReturns err => left; simpa [step, returns_result] using hblocked
    | StartReturns err => left; simpa [step, returns_result] using hblocked
    | Recv => left; simp [step, Sys.recv, hblocked, hq]
    | RecvStop => right; exact hstop

/-- C5 (amended), at a concrete input: the signal arrives while both services
run; the `select` takes the stop case; both services fail afterwards. -/
theorem stop_case_returns_nil_witness :
    (run Sys.init [Event.Signal, Event.RecvStop,
      Event.RunServerReturns (some (GoError.leaf "grpc: serve failed")),
      Event.StartReturns (some (GoError.leaf "leader election lost")), Event.Recv]).result =
      some none :=
  (stop_case_returns_nil (run Sys.init [Event.Signal])
    [Event.RunServerReturns (some (GoError.leaf "grpc: serve failed")),
      Event.StartReturns (some (GoError.leaf "leader election lost")), Event.Recv]
    (by decide) (by decide)).2.1

/-- C9 (as stated, refuted): the authorization server fails and `RunE` returns
its failure while `stopChan` is still open and the controller is still inside
its run-loop. Every event of the schedule can happen at its turn. -/
theorem failure_returned_without_shutdown :
    feasible Sys.init Schedule.failureOnly = true ∧
    (run Sys.init Schedule.failureOnly).result =
      some (some (ExitErrorf EX_FAIL "authorization server failed: %w"
        (GoError.leaf "grpc: serve failed"))) ∧
    (run Sys.init Schedule.failureOnly).stopped = false ∧
    (run Sys.init Schedule.failureOnly).controller = none := by
  refine ⟨?_, ?_, ?_, ?_⟩ <;> decide

/-- C9 (amended): `stopChan` is closed by the signal handler and by nothing
else. After any schedule it is closed exactly when a signal has arrived, so a
service failure returned by `RunE` in a run without a signal leaves it open; and
the step in which `RunE` receives an outcome does not change it. -/
theorem shutdown_fired_only_by_signal (evs : List Event) :
    ((run Sys.init evs).stopped = true ↔ Event.Signal ∈ evs) ∧
    (∀ x, (run Sys.init evs).result = some (some x) → Event.Signal ∉ evs →
      (run Sys.init evs).stopped = false) ∧
    (∀ s : Sys, (step s Event.Recv).stopped = s.stopped) := by
  have h : (run Sys.init evs).stopped = true ↔ Event.Signal ∈ evs := by
    rw [run_stopped]
    simp [Sys.init]
  refine ⟨h, ?_, ?_⟩
  · intro x _ hsig
    cases hst : (run Sys.init evs).stopped with
    | false => rfl
    | true => exact absurd (h.mp hst) hsig
  · intro s
    simp [step, recv_stopped]

/-- C6: every error returned by the command comes from one of the six places
where `RunE` builds an error, and it carries `EX_CONFIG` exactly when it comes
from controller-manager construction, from binding the listener or from loading
the TLS credentials, and `EX_FAIL` exactly when it comes from controller
registration, from the authorization server's run-loop or from the controller
manager's run-loop. -/
theorem exit_class_by_origin (f : Flags) (env : Env) (schedule : List Event) (x : ExitError)
    (h : RunE f env schedule = some (some x)) :
    (∃ o, ArisesFrom f env schedule x o) ∧
    (∀ o, ArisesFrom f env schedule x o → x.Code = o.exitClass) ∧
    (x.Code = EX_CONFIG ↔
      ArisesFrom f env schedule x Origin.managerConstruction ∨
      ArisesFrom f env schedule x Origin.listenerBind ∨
      ArisesFrom f env schedule x Origin.tlsLoading) ∧
    (x.Code = EX_FAIL ↔
      ArisesFrom f env schedule x Origin.controllerRegistration ∨
      ArisesFrom f env schedule x Origin.authServerRun ∨
      ArisesFrom f env schedule x Origin.controllerRun) := by
  obtain ⟨o, ho, hc⟩ := RunE_error_has_origin f env schedule x h
  have hclass := RunE_origin_class f env schedule x h
  refine ⟨⟨o, ho⟩, hclass, ⟨?_, ?_⟩, ⟨?_, ?_⟩⟩
  · intro hx
    rw [hx] at hc
    cases o with
    | managerConstruction => exact Or.inl ho
    | listenerBind => exact Or.inr (Or.inl ho)
    | tlsLoading => exact Or.inr (Or.inr ho)
    | controllerRegistration => cases hc
    | authServerRun => cases hc
    | controllerRun => cases hc
  · rintro (h1 | h1 | h1) <;> exact hclass _ h1
  · intro hx
    rw [hx] at hc
    cases o with
    | managerConstruction => cases hc
    | listenerBind => cases hc
    | tlsLoading => cases hc
    | controllerRegistration => exact Or.inl ho
    | authServerRun => exact Or.inr (Or.inl ho)
    | controllerRun => exact Or.inr (Or.inr ho)
  · rintro (h1 | h1 | h1) <;> exact hclass _ h1

/-- C6, at a concrete input: start-up succeeds, the controller manager's
run-loop fails and `RunE` returns its failure, of class `EX_FAIL`. -/
theorem exit_class_by_origin_witness :
    (ExitErrorf EX_FAIL "controller manager failed: %w"
      (GoError.leaf "leader election lost")).Code = EX_FAIL ↔
      ArisesFrom Flags.defaults (Env.healthy (auth.NewServerCredentials FileSystem.empty))
        [Event.StartReturns (some (GoError.leaf "leader election lost")), Event.Recv]
        (ExitErrorf EX_FAIL "controller manager failed: %w"
          (GoError.leaf "leader election lost")) Origin.controllerRegistration ∨
      ArisesFrom Flags.defaults (Env.healthy (auth.NewServerCredentials FileSystem.empty))
        [Event.StartReturns (some (GoError.leaf "leader election lost")), Event.Recv]
        (ExitErrorf EX_FAIL "controller manager failed: %w"
          (GoError.leaf "leader election lost")) Origin.authServerRun ∨
      ArisesFrom Flags.defaults (Env.healthy (auth.NewServerCredentials FileSystem.empty))
        [Event.StartReturns (some (GoError.leaf "leader election lost")), Event.Recv]
        (ExitErrorf EX_FAIL "controller manager failed: %w"
          (GoError.leaf "leader election lost")) Origin.controllerRun :=
  (exit_class_by_origin Flags.defaults
    (Env.healthy (auth.NewServerCredentials FileSystem.empty))
    [Event.StartReturns (some (GoError.leaf "leader election lost")), Event.Recv]
    (ExitErrorf EX_FAIL "controller manager failed: %w" (GoError.leaf "leader election lost"))
    (by decide)).2.2.2

end Htpasswd
